import Mathlib

/-!
Verification development for the Smart_Contract_Agent repository.

The Python sources are shallowly embedded: pure fragments become Lean
functions, the mutable approval-request store and the compilation registry
become explicit state values threaded through operations, and Python
exceptions become `Except` / `Option` results.  External collaborators
(the chain RPC client, the solc compiler, the LLM) are modelled as explicit
inputs or function parameters, matching the spec's treatment of them as
opaque interfaces.
-/

namespace SmartContractAgent

/-! ## Python JSON values (result of `json.loads`)

A parsed JSON document, as produced by Python's `json.loads`:  `null`,
booleans, (integer) numbers, strings, arrays and objects.  Objects keep
their key order, as Python dicts do. -/

inductive JsonValue where
  | null
  | bool (b : Bool)
  | num (n : Int)
  | str (s : String)
  | arr (elems : List JsonValue)
  | obj (fields : List (String × JsonValue))

/-- Python truthiness of a parsed JSON value: `None`, `False`, `0`, `""`,
`[]` and `\x7b\x7d` are falsy, everything else truthy. -/
def JsonValue.truthy : JsonValue → Bool
  | .null => false
  | .bool b => b
  | .num n => n != 0
  | .str s => s != ""
  | .arr es => !es.isEmpty
  | .obj fs => !fs.isEmpty

/-- Dict lookup `d[k]` on a Python dict (first binding wins, as keys are unique
in a real dict). -/
def pyDictGet (fields : List (String × JsonValue)) (key : String) : Option JsonValue :=
  (fields.find? (fun p => p.1 == key)).map (·.2)

/-- Truthiness of `parsed.get(key, default)` where `default` is a Python
boolean: the present value's truthiness, else the default. -/
def pyGetFlag (fields : List (String × JsonValue)) (key : String) (dflt : Bool) : Bool :=
  match pyDictGet fields key with
  | some v => v.truthy
  | none => dflt

/-! ## A model of `json.loads`

A small fuel-based JSON parser.  It supports the forms the agent's
structured payloads use (objects, strings, booleans, integers, arrays,
`null`); `json.loads` raises `json.JSONDecodeError` exactly when the parse
fails, which the model renders as `none`. -/

/-- Skip JSON whitespace. -/
def skipWs : List Char → List Char
  | c :: cs => if c = ' ' ∨ c = '\t' ∨ c = '\n' ∨ c = '\r' then skipWs cs else c :: cs
  | [] => []

/-- Consume an expected literal character sequence. -/
def stripLit : List Char → List Char → Option (List Char)
  | [], cs => some cs
  | p :: ps, c :: cs => if c = p then stripLit ps cs else none
  | _ :: _, [] => none

/-- Parse the body of a JSON string after the opening quote, handling the
common escapes. -/
def parseStringBody : List Char → Option (String × List Char)
  | [] => none
  | '"' :: rest => some ("", rest)
  | '\\' :: c :: rest => do
    let e ← match c with
      | '"' => some '"'
      | '\\' => some '\\'
      | '/' => some '/'
      | 'n' => some '\n'
      | 't' => some '\t'
      | 'r' => some '\r'
      | _ => none
    let (s, rest') ← parseStringBody rest
    some (⟨e :: s.data⟩, rest')
  | c :: rest => do
    let (s, rest') ← parseStringBody rest
    some (⟨c :: s.data⟩, rest')

/-- Longest digit run at the head of the input. -/
def takeDigits : List Char → List Char × List Char
  | c :: cs =>
    if c.isDigit then
      let (ds, rest) := takeDigits cs
      (c :: ds, rest)
    else ([], c :: cs)
  | [] => ([], [])

/-- Decimal value of a digit run. -/
def digitsToNat (ds : List Char) : Nat :=
  ds.foldl (fun acc c => 10 * acc + (c.toNat - '0'.toNat)) 0

mutual

/-- Parse one JSON value; returns the value and the remaining input. -/
def parseJson : Nat → List Char → Option (JsonValue × List Char)
  | 0, _ => none
  | Nat.succ fuel, cs0 =>
    match skipWs cs0 with
    | [] => none
    | '"' :: rest => (parseStringBody rest).map (fun p => (.str p.1, p.2))
    | 'n' :: rest => (stripLit ['u', 'l', 'l'] rest).map (fun r => (.null, r))
    | 't' :: rest => (stripLit ['r', 'u', 'e'] rest).map (fun r => (.bool true, r))
    | 'f' :: rest => (stripLit ['a', 'l', 's', 'e'] rest).map (fun r => (.bool false, r))
    | '[' :: rest =>
      (match skipWs rest with
       | ']' :: rest' => some (.arr [], rest')
       | rest' => (parseArrayItems fuel rest').map (fun p => (.arr p.1, p.2)))
    | '\x7b' :: rest =>
      (match skipWs rest with
       | '\x7d' :: rest' => some (.obj [], rest')
       | rest' => (parseObjItems fuel rest').map (fun p => (.obj p.1, p.2)))
    | '-' :: rest =>
      (match takeDigits rest with
       | ([], _) => none
       | (ds, rest') => some (.num (-(digitsToNat ds : Int)), rest'))
    | c :: rest =>
      if c.isDigit then
        let (ds, rest') := takeDigits (c :: rest)
        some (.num (digitsToNat ds), rest')
      else none

/-- Parse the comma-separated items of a (non-empty) JSON array. -/
def parseArrayItems : Nat → List Char → Option (List JsonValue × List Char)
  | 0, _ => none
  | Nat.succ fuel, cs => do
    let (v, rest) ← parseJson fuel cs
    match skipWs rest with
    | ']' :: rest' => some ([v], rest')
    | ',' :: rest' => do
      let (vs, rest'') ← parseArrayItems fuel rest'
      some (v :: vs, rest'')
    | _ => none

/-- Parse the comma-separated members of a (non-empty) JSON object. -/
def parseObjItems : Nat → List Char → Option (List (String × JsonValue) × List Char)
  | 0, _ => none
  | Nat.succ fuel, cs =>
    match skipWs cs with
    | '"' :: rest => do
      let (k, rest1) ← parseStringBody rest
      match skipWs rest1 with
      | ':' :: rest2 => do
        let (v, rest3) ← parseJson fuel rest2
        match skipWs rest3 with
        | '\x7d' :: rest4 => some ([(k, v)], rest4)
        | ',' :: rest4 => do
          let (kvs, rest5) ← parseObjItems fuel rest4
          some ((k, v) :: kvs, rest5)
        | _ => none
      | _ => none
    | _ => none

end

/-- Model of Python's `json.loads`: parse a full document, requiring all
input to be consumed; `none` models a raised `json.JSONDecodeError`. -/
def json_loads (s : String) : Option JsonValue :=
  match parseJson (2 * s.length + 2) s.data with
  | some (v, rest) => if (skipWs rest).isEmpty then some v else none
  | none => none

/-! ## Messages and the topic gates of `react_agent.py`

A workflow `Message`'s `content` is `None`, a string, or some other
structured payload; the gates only ever inspect string contents
(`isinstance(msg.content, str)`). -/

/-- The `content` attribute of a message, as the gates see it. -/
inductive PyContent where
  | none
  | str (s : String)
  | other

/-- A workflow message, reduced to the field the topic gates read. -/
structure Message where
  content : PyContent

/-- Exceptions a gate body can raise. -/
inductive PyError where
  | jsonDecodeError
  | attributeError

/-- One message's contribution to a gate of the reasoning-decision shape
(`action_topic`, `deployment_topic`, `reasoning_output_topic` differ only
in the final boolean formula `flagEval` over the parsed dict):

`hasattr(msg, 'content') and isinstance(msg.content, str) and
json.loads(msg.content) and <flagEval of the parse>` — the walrus binding
of `parsed` is the parse result used by `flagEval`.

`json.loads` raises on malformed strings; a falsy parse short-circuits the
`and`-chain to a falsy value; `.get` on a truthy non-dict raises
`AttributeError`. -/
def decisionGateCond (flagEval : List (String × JsonValue) → Bool) (m : Message) :
    Except PyError Bool :=
  match m.content with
  | .str s =>
    match json_loads s with
    | none => .error .jsonDecodeError
    | some parsed =>
      if parsed.truthy then
        match parsed with
        | .obj fields => .ok (flagEval fields)
        | _ => .error .attributeError
      else .ok false
  | _ => .ok false

/-- Python's `any(gen)`: evaluate in order, short-circuiting at the first
truthy element; an exception raised before that propagates. -/
def evalAny (pred : Message → Except PyError Bool) : List Message → Except PyError Bool
  | [] => .ok false
  | m :: ms =>
    match pred m with
    | .error e => .error e
    | .ok true => .ok true
    | .ok false => evalAny pred ms

/-- Flag formula of `action_topic`:
`parsed.get('requires_tool_call', False) and not parsed.get('requires_deployment', False)`. -/
def actionFlags (fields : List (String × JsonValue)) : Bool :=
  pyGetFlag fields "requires_tool_call" false && !(pyGetFlag fields "requires_deployment" false)

/-- Flag formula of `deployment_topic` (the leading `print(...) or` is falsy
and value-transparent): `parsed.get('requires_deployment', False)`. -/
def deploymentFlags (fields : List (String × JsonValue)) : Bool :=
  pyGetFlag fields "requires_deployment" false

/-- Flag formula of `reasoning_output_topic` (after its falsy `print(...) or`):
`not parsed.get('requires_tool_call', True) and not parsed.get('requires_deployment', True)`. -/
def reasoningFlags (fields : List (String × JsonValue)) : Bool :=
  !(pyGetFlag fields "requires_tool_call" true) && !(pyGetFlag fields "requires_deployment" true)

/-- The `condition` of `action_topic`, over a published batch. -/
def action_topic_condition (msgs : List Message) : Except PyError Bool :=
  evalAny (decisionGateCond actionFlags) msgs

/-- The `condition` of `deployment_topic`, over a published batch. -/
def deployment_topic_condition (msgs : List Message) : Except PyError Bool :=
  evalAny (decisionGateCond deploymentFlags) msgs

/-- The `condition` of `reasoning_output_topic`, over a published batch. -/
def reasoning_output_topic_condition (msgs : List Message) : Except PyError Bool :=
  evalAny (decisionGateCond reasoningFlags) msgs

/-! ## The approval-request store

`approval_requests` in `routers/approval.py` is a module-level dict keyed
by approval id, mutated by three operations: approval creation with
deduplication in `chat_endpoint` (`routers/chat.py`), processing in
`submit_approval_response`, and the dev endpoint
`create_mock_approval_request`.  Python dicts preserve insertion order, so
the store is an association list with unique keys. -/

mutual

/-- Python `repr` of a parsed JSON value (string escaping inside nested
reprs is not modelled; the fingerprints this system builds are plain hex
strings). -/
def pyReprVal : JsonValue → String
  | .null => "None"
  | .bool true => "True"
  | .bool false => "False"
  | .num n => toString n
  | .str s => "'" ++ s ++ "'"
  | .arr es => "[" ++ pyReprList es ++ "]"
  | .obj fs => "\x7b" ++ pyReprFields fs ++ "\x7d"

/-- Python `repr` of the elements of a list. -/
def pyReprList : List JsonValue → String
  | [] => ""
  | [v] => pyReprVal v
  | v :: vs => pyReprVal v ++ ", " ++ pyReprList vs

/-- Python `repr` of the members of a dict. -/
def pyReprFields : List (String × JsonValue) → String
  | [] => ""
  | [(k, v)] => "'" ++ k ++ "': " ++ pyReprVal v
  | (k, v) :: fs => "'" ++ k ++ "': " ++ pyReprVal v ++ ", " ++ pyReprFields fs

end

/-- Python `str()`: identity on strings, `repr`-like elsewhere. -/
def pyStr : JsonValue → String
  | .str s => s
  | v => pyReprVal v

/-- The stored approval-request record, reduced to the fields the claims
concern: the `transaction_data` dict and the `processed` flag. -/
structure ApprovalRecord where
  transaction_data : List (String × JsonValue)
  processed : Bool

/-- The `approval_requests` dict. -/
abbrev ApprovalStore := List (String × ApprovalRecord)

/-- Dict lookup on an association list (Python `d[k]` / `k in d`). -/
def alistFind {α : Type} (xs : List (String × α)) (k : String) : Option α :=
  match xs with
  | [] => none
  | (k', v) :: rest => if k' == k then some v else alistFind rest k

/-- The dedup fingerprint `str(transaction_data.get('data', ''))` used by
`chat_endpoint`. -/
def txFingerprint (td : List (String × JsonValue)) : String :=
  pyStr (match pyDictGet td "data" with | some v => v | none => .str "")

/-- The duplicate scan of `chat_endpoint` (lines 164-170): the first
unprocessed request whose fingerprint equals `fpStr`, if any. -/
def findExistingApproval (store : ApprovalStore) (fpStr : String) : Option String :=
  match store with
  | [] => none
  | (id, r) :: rest =>
    if !r.processed && (txFingerprint r.transaction_data == fpStr) then some id
    else findExistingApproval rest fpStr

/-- Approval creation in `chat_endpoint` (lines 160-197): if an unprocessed
request with the same fingerprint exists, skip; otherwise insert a fresh
unprocessed record keyed by a fresh id. -/
def chatCreateApproval (store : ApprovalStore) (freshId : String)
    (td : List (String × JsonValue)) : ApprovalStore :=
  match findExistingApproval store (txFingerprint td) with
  | some _ => store
  | none => store ++ [(freshId, { transaction_data := td, processed := false })]

/-- The assignment `approval_requests[approval_id]["processed"] = True` guarded by
`approval_id in approval_requests` (approval.py lines 148-153). -/
def markProcessed (store : ApprovalStore) (approval_id : String) : ApprovalStore :=
  store.map (fun p =>
    if p.1 = approval_id then (p.1, { p.2 with processed := true }) else p)

/-- The fixed `transaction_data` of `create_mock_approval_request`. -/
def mockTransactionData : List (String × JsonValue) :=
  [("to", .null),
   ("data", .str "0x608060405234801561001057600080fd5b50..."),
   ("gas", .num 2000000),
   ("gasPrice", .str "10000000000"),
   ("chainId", .num 11155111),
   ("value", .str "0")]

/-- The dev endpoint `create_mock_approval_request`: inserts an unprocessed
request under a fresh id with no duplicate check. -/
def create_mock_approval_request (store : ApprovalStore) (freshId : String) : ApprovalStore :=
  store ++ [(freshId, { transaction_data := mockTransactionData, processed := false })]

/-- Backend state relevant to `submit_approval_response`: the approval
store plus a count of workflow invocations (`assistant.a_invoke` calls),
the downstream effect of a respond call. -/
structure BackendState where
  approval_requests : ApprovalStore
  workflow_invocations : Nat

/-- Result payload of the respond endpoint. -/
structure ApprovalSubmitResponse where
  success : Bool
  message : String

/-- Embedding of `submit_approval_response` (approval.py lines 86-168): with no
assistant the handler raises and the outer `except` returns a failure
payload; otherwise it always drives one `assistant.a_invoke` round before
marking the request processed (if present), and returns success either
way. -/
def submit_approval_response (assistantAvailable : Bool) (st : BackendState)
    (approval_id : String) : ApprovalSubmitResponse × BackendState :=
  if assistantAvailable then
    let st1 : BackendState :=
      { approval_requests := markProcessed st.approval_requests approval_id,
        workflow_invocations := st.workflow_invocations + 1 }
    ({ success := true, message := "Approval response submitted successfully" }, st1)
  else
    ({ success := false, message := "Failed to submit approval response" }, st)

/-- No two unprocessed requests in the store share a fingerprint (the
claimed store invariant, as a decidable check). -/
def dedupOK : ApprovalStore → Bool
  | [] => true
  | (_, r) :: rest =>
    (r.processed || (findExistingApproval rest (txFingerprint r.transaction_data)).isNone)
      && dedupOK rest

/-- States of `approval_requests` reachable through all the store-mutating
operations present in the code: chat-endpoint creation, respond
processing, and the dev mock-request endpoint. -/
inductive ReachableState : ApprovalStore → Prop
  | init : ReachableState []
  | chat (s : ApprovalStore) (freshId : String) (td : List (String × JsonValue)) :
      ReachableState s → alistFind s freshId = none →
      ReachableState (chatCreateApproval s freshId td)
  | respond (s : ApprovalStore) (approval_id : String) :
      ReachableState s → ReachableState (markProcessed s approval_id)
  | mock (s : ApprovalStore) (freshId : String) :
      ReachableState s → alistFind s freshId = none →
      ReachableState (create_mock_approval_request s freshId)

/-- States reachable through the deployment-approval workflow proper:
chat-endpoint creation and respond processing only. -/
inductive ChatReachable : ApprovalStore → Prop
  | init : ChatReachable []
  | chat (s : ApprovalStore) (freshId : String) (td : List (String × JsonValue)) :
      ChatReachable s → alistFind s freshId = none →
      ChatReachable (chatCreateApproval s freshId td)
  | respond (s : ApprovalStore) (approval_id : String) :
      ChatReachable s → ChatReachable (markProcessed s approval_id)

/-! ## MCP server (`services/mcp_server/src/servers/server.py`)

String helpers modelling the Python operations the server uses, written
over character lists so that concrete witnesses evaluate by `rfl`. -/

/-- Is `needle` a leading segment of `hay`? -/
def isSubAt : List Char → List Char → Bool
  | [], _ => true
  | _ :: _, [] => false
  | n :: ns, h :: hs => n == h && isSubAt ns hs

/-- Python `needle in hay` substring test on char lists. -/
def strIn : List Char → List Char → Bool
  | needle, [] => needle.isEmpty
  | needle, c :: hs => isSubAt needle (c :: hs) || strIn needle hs

/-- Python `needle in hay` on strings. -/
def pyIn (needle hay : String) : Bool := strIn needle.data hay.data

/-- Python `s.lower()` (ASCII). -/
def pyLower (s : String) : String := ⟨s.data.map Char.toLower⟩

/-- Python `s.startswith(pre)`. -/
def pyStartsWith (s pre : String) : Bool := isSubAt pre.data s.data

/-- A constructor-argument value as Python builds it: an int, a string
(addresses included — Python appends the address string itself), or a
bool. -/
inductive PyValue where
  | int (n : Int)
  | str (s : String)
  | bool (b : Bool)

/-- One ABI constructor parameter (`input_param['name']`,
`input_param['type']`). -/
structure AbiParam where
  name : String
  type : String
deriving DecidableEq

/-- One ABI item (`item.get('type')`, `item.get('inputs', [])`). -/
structure AbiItem where
  type : String
  inputs : List AbiParam
deriving DecidableEq

/-- The constructor-locating loop of `prepare_deployment_transaction`
(and `deploy_contract`): inputs of the first item of type
`"constructor"`, else `[]`. -/
def findConstructorInputs : List AbiItem → List AbiParam
  | [] => []
  | item :: rest =>
    if item.type == "constructor" then item.inputs else findConstructorInputs rest

/-- The per-parameter argument synthesis of
`prepare_deployment_transaction` (server.py lines 576-619), with the
`[WARNING]` print recorded as a warning string.  The two `address`
sub-branches both append the (checksummed) user address. -/
def synthesizeConstructorArg (user_address : String) (p : AbiParam) :
    PyValue × List String :=
  let param_name := pyLower p.name
  let param_type := p.type
  if param_type == "address" then
    (.str user_address, [])
  else if param_type == "uint256" then
    if pyIn "supply" param_name || pyIn "amount" param_name then
      (.int (1000000 * 10 ^ 18), [])
    else if pyIn "cap" param_name || pyIn "max" param_name then
      (.int (10000000 * 10 ^ 18), [])
    else (.int 0, [])
  else if param_type == "string" then
    if pyIn "name" param_name then (.str "User Token", [])
    else if pyIn "symbol" param_name then (.str "UTK", [])
    else (.str "", [])
  else if param_type == "uint8" then
    (.int 18, [])
  else
    let w := ["Unknown constructor parameter type: " ++ param_type]
    if pyStartsWith param_type "uint" then (.int 0, w)
    else if param_type == "bool" then (.bool false, w)
    else (.str "", w)

/-- The argument-building loop: one synthesized value per constructor
parameter, in order, with all warnings collected. -/
def buildConstructorArgs (user_address : String) (inputs : List AbiParam) :
    List PyValue × List String :=
  match inputs with
  | [] => ([], [])
  | p :: rest =>
    let (v, w) := synthesizeConstructorArg user_address p
    let (vs, ws) := buildConstructorArgs user_address rest
    (v :: vs, w ++ ws)

/-- The synthesis policy as the claim states it, clause by clause
(ordered): `address` → signer; `uint256` by name (supply/amount, cap/max,
else 0); `string` by name (placeholder name, placeholder symbol, else
empty); `uint8` → 18; other `uint*` → 0; `bool` → false; otherwise the
empty string.  Stated separately from the source embedding so the two can
be compared. -/
def specConstructorArg (signer : String) (p : AbiParam) : PyValue :=
  let n := pyLower p.name
  if p.type == "address" then .str signer
  else if p.type == "uint256" then
    if pyIn "supply" n || pyIn "amount" n then .int (10 ^ 6 * 10 ^ 18)
    else if pyIn "cap" n || pyIn "max" n then .int (10 ^ 7 * 10 ^ 18)
    else .int 0
  else if p.type == "string" then
    if pyIn "name" n then .str "User Token"
    else if pyIn "symbol" n then .str "UTK"
    else .str ""
  else if p.type == "uint8" then .int 18
  else if pyStartsWith p.type "uint" then .int 0
  else if p.type == "bool" then .bool false
  else .str ""

/-- A parameter type that falls through to the empty-string-with-warning
default: none of the four handled types, not `uint*`, not `bool`. -/
def isUnrecognizedType (t : String) : Bool :=
  !(t == "address") && !(t == "uint256") && !(t == "string") && !(t == "uint8")
    && !(pyStartsWith t "uint") && !(t == "bool")

/-! ### Compilation registry -/

/-- A stored compilation (`compilation_cache` entry: `abi`, `bytecode`,
`source_code`). -/
structure CompilationEntry where
  abi : List AbiItem
  bytecode : String
  source_code : String

/-- The `compilation_cache` dict. -/
abbrev Registry := List (String × CompilationEntry)

/-- One contract of the solc output (`abi`, `bin`). -/
structure CompiledContract where
  abi : List AbiItem
  bin : String

/-- Result of the `compile_contract` tool. -/
inductive CompileResult where
  | ok (compilation_id : String) (message : String)
  | failure (message : String)

/-- Embedding of `compile_contract` (server.py lines 227-257).  The solc invocation is
an external collaborator, so its outcome — the ordered dict of compiled
contracts, empty when compilation produced nothing — is an input;
`next(iter(compiled.items()))` takes the first contract, and one entry is
stored under the freshly generated id.  Any exception (a compiler
diagnostic, or `StopIteration` on an empty output) is caught and returned
as a failure payload. -/
def compile_contract (cache : Registry) (freshId : String) (solidity_code : String)
    (compiled : List (String × CompiledContract)) : CompileResult × Registry :=
  match compiled with
  | [] => (.failure "Compilation failed", cache)
  | (_, contract_data) :: _ =>
    let entry : CompilationEntry :=
      { abi := contract_data.abi, bytecode := contract_data.bin,
        source_code := solidity_code }
    (.ok freshId
      "Contract compiled successfully. Use get_abi and get_bytecode tools to retrieve data.",
      cache ++ [(freshId, entry)])

/-- Result of the `get_abi` tool. -/
inductive GetAbiResult where
  | ok (abi : List AbiItem) (message : String)
  | failure (message : String)

/-- Embedding of `get_abi` (server.py lines 263-279): pure lookup. -/
def get_abi (cache : Registry) (compilation_id : String) : GetAbiResult :=
  match alistFind cache compilation_id with
  | none => .failure "Invalid compilation ID"
  | some e => .ok e.abi "ABI retrieved successfully"

/-- Result of the `get_bytecode` tool. -/
inductive GetBytecodeResult where
  | ok (bytecode : String) (message : String)
  | failure (message : String)

/-- Embedding of `get_bytecode` (server.py lines 281-301): pure lookup. -/
def get_bytecode (cache : Registry) (compilation_id : String) : GetBytecodeResult :=
  match alistFind cache compilation_id with
  | none => .failure "Invalid compilation ID"
  | some e => .ok e.bytecode "Bytecode retrieved successfully"

/-! ### prepare_deployment_transaction -/

/-- The chain-client observations `prepare_deployment_transaction` makes:
RPC configuration, connectivity, the signer's nonce, the chain id, and the
gas-estimation outcome (`none` models a raised estimation error). -/
structure ChainState where
  rpc_configured : Bool
  connected : Bool
  nonce : Nat
  chain_id : Nat
  gas_estimate : Option Nat

/-- The unsigned transaction dict built by
`contract.constructor(*args).build_transaction(...)`. -/
structure UnsignedTransaction where
  fromAddr : String
  nonce : Nat
  gas : Nat
  gasPrice : Nat
  chainId : Nat
  data : String
  value : Nat

/-- Result of `prepare_deployment_transaction`: the failure payload
`\x7b"success": False, "message": msg, "transaction": None\x7d`, or the
success payload with its transaction and metadata. -/
inductive PrepareResult where
  | failure (message : String)
  | ok (transaction : UnsignedTransaction) (constructor_args : List PyValue)
      (estimated_gas : Nat) (gas_price_gwei : Nat) (chain_id : Nat)
      (user_address : String)

/-- The `constructor_args` field of a prepare result, when present. -/
def PrepareResult.ctorArgs : PrepareResult → Option (List PyValue)
  | .failure _ => none
  | .ok _ args _ _ _ _ => some args

/-- Is the result's `success` field true? -/
def PrepareResult.isSuccess : PrepareResult → Bool
  | .failure _ => false
  | .ok _ _ _ _ _ _ => true

/-- Embedding of `prepare_deployment_transaction` (server.py lines 509-663).
`checksum` models `w3.to_checksum_address` and `encodeCtor` the ABI
encoding of the constructor arguments appended to the bytecode by
`build_transaction`; both are deterministic external library functions.
The registry is only read.  `int(estimated_gas * 1.2)` is modelled as
`6 * g / 5` (exact on the gas magnitudes involved). -/
def prepare_deployment_transaction
    (checksum : String → String)
    (encodeCtor : List AbiItem → List PyValue → String)
    (cache : Registry) (chain : ChainState)
    (compilation_id user_wallet_address : String)
    (gas_limit gas_price_gwei : Nat) : PrepareResult :=
  match alistFind cache compilation_id with
  | none => .failure "Invalid compilation ID"
  | some entry =>
    if !chain.rpc_configured then
      .failure "Ethereum RPC URL not configured in environment variables"
    else if !chain.connected then
      .failure "Failed to connect to Ethereum network"
    else
      let abi := entry.abi
      let bytecode := entry.bytecode
      let user_address := checksum user_wallet_address
      let nonce := chain.nonce
      let constructor_inputs := findConstructorInputs abi
      let (constructor_args, _) := buildConstructorArgs user_address constructor_inputs
      let transaction : UnsignedTransaction :=
        { fromAddr := user_address, nonce := nonce, gas := gas_limit,
          gasPrice := gas_price_gwei * 10 ^ 9, chainId := chain.chain_id,
          data := bytecode ++ encodeCtor abi constructor_args, value := 0 }
      match chain.gas_estimate with
      | some estimated_gas =>
        let recommended_gas := 6 * estimated_gas / 5
        .ok { transaction with gas := recommended_gas } constructor_args
          recommended_gas gas_price_gwei chain.chain_id user_address
      | none =>
        .ok transaction constructor_args gas_limit gas_price_gwei
          chain.chain_id user_address

/-- The chat endpoint's handling of a prepare-tool response (chat.py lines
133-202): a payload with `success` and `transaction` keys either creates
an approval request (dedup included) when `success` is truthy, or — on
`success: False` — only reports failure, touching no store. -/
def chatHandlePrepareResult (store : ApprovalStore) (freshId : String)
    (res : PrepareResult) : ApprovalStore :=
  match res with
  | .failure _ => store
  | .ok tx _ _ _ _ _ =>
    chatCreateApproval store freshId
      [("from", .str tx.fromAddr), ("nonce", .num tx.nonce), ("gas", .num tx.gas),
       ("gasPrice", .num tx.gasPrice), ("chainId", .num tx.chainId),
       ("data", .str tx.data), ("value", .num tx.value)]

/-! ### broadcast_signed_transaction -/

/-- Hex value of one character, as `bytes.fromhex` accepts it. -/
def hexVal (c : Char) : Option Nat :=
  if '0' ≤ c ∧ c ≤ '9' then some (c.toNat - '0'.toNat)
  else if 'a' ≤ c ∧ c ≤ 'f' then some (c.toNat - 'a'.toNat + 10)
  else if 'A' ≤ c ∧ c ≤ 'F' then some (c.toNat - 'A'.toNat + 10)
  else none

/-- Python `bytes.fromhex` on a char list: pairs of hex digits, spaces allowed
between bytes, `none` models the raised `ValueError` (odd digit count or a
non-hex character). -/
def bytesFromhexAux : List Char → Option (List Nat)
  | [] => some []
  | c :: cs =>
    if c = ' ' then bytesFromhexAux cs
    else
      match cs with
      | [] => none
      | c2 :: cs' => do
        let h ← hexVal c
        let l ← hexVal c2
        let rest ← bytesFromhexAux cs'
        some ((16 * h + l) :: rest)

/-- Python `bytes.fromhex`. -/
def bytes_fromhex (s : String) : Option (List Nat) := bytesFromhexAux s.data

/-- The prefix stripping of `broadcast_signed_transaction` (lines
701-704): drop a leading `0x` if present. -/
def strip0x (s : String) : String :=
  match s.data with
  | '0' :: 'x' :: rest => ⟨rest⟩
  | _ => s

/-- Chain-client observations of `broadcast_signed_transaction`: RPC
configuration, connectivity, and the receipt the bounded wait returns
(`none` models the timeout exception). -/
structure BroadcastChain where
  rpc_configured : Bool
  connected : Bool
  receipt_contract_address : String
  receipt_gas_used : Nat
  receipt_block_number : Nat
  receipt_available : Bool

/-- Result payload of `broadcast_signed_transaction`. -/
inductive BroadcastResult where
  | failure (message : String)
  | ok (contract_address : String) (gas_used : Nat) (block_number : Nat)

/-- Embedding of `broadcast_signed_transaction` (server.py lines 669-738).  The second
component records every raw transaction handed to
`w3.eth.send_raw_transaction` during the call (the chain submissions).
A hex-decode failure is the caught `ValueError`, returned as the
`success: False` payload with nothing submitted. -/
def broadcast_signed_transaction (chain : BroadcastChain)
    (signed_transaction_hex : String) : BroadcastResult × List (List Nat) :=
  if !chain.rpc_configured then
    (.failure "Ethereum RPC URL not configured in environment variables", [])
  else if !chain.connected then
    (.failure "Failed to connect to Ethereum network", [])
  else
    match bytes_fromhex (strip0x signed_transaction_hex) with
    | none => (.failure "Transaction broadcast failed: non-hexadecimal number found in fromhex() arg", [])
    | some signed_transaction_bytes =>
      if chain.receipt_available then
        (.ok chain.receipt_contract_address chain.receipt_gas_used
          chain.receipt_block_number, [signed_transaction_bytes])
      else
        (.failure "Transaction broadcast failed: timeout", [signed_transaction_bytes])

/-- The spec's notion of a valid signed-transaction hex payload: an
optional `0x` prefix followed by hex digits, an even number of them
(decodable as bytes). -/
def specValidHex (s : String) : Bool :=
  let t := strip0x s
  t.data.all (fun c => (hexVal c).isSome) && t.data.length % 2 == 0

/-! ## Shared lemmas and concrete messages -/

/-- Python `any` over a one-message batch is that message's predicate value. -/
lemma evalAny_singleton (pred : Message → Except PyError Bool) (m : Message) :
    evalAny pred [m] = pred m := by
  cases h : pred m with
  | error e => simp [evalAny, h]
  | ok b => cases b <;> simp [evalAny, h]

/-- A present key forces the dict to be non-empty. -/
lemma pyGetFlag_true_ne_empty (fields : List (String × JsonValue)) (k : String)
    (h : pyGetFlag fields k false = true) : fields.isEmpty = false := by
  cases fields with
  | nil => simp [pyGetFlag, pyDictGet] at h
  | cons p rest => rfl

/-- A reasoning decision with no tool call and no deployment. -/
def msgFinal : Message := ⟨.str "\x7b\"requires_tool_call\": false, \"requires_deployment\": false\x7d"⟩

/-- A reasoning decision routing to the action branch only. -/
def msgActionOnly : Message :=
  ⟨.str "\x7b\"requires_tool_call\": true, \"requires_deployment\": false\x7d"⟩

/-- A contradictory reasoning decision marking both flags. -/
def msgBothFlags : Message :=
  ⟨.str "\x7b\"requires_tool_call\": true, \"requires_deployment\": true\x7d"⟩

/-- A message whose content is not valid JSON. -/
def msgNotJson : Message := ⟨.str "not-json"⟩

/-- A message with no content. -/
def msgNone : Message := ⟨.none⟩

/-- The parsed fields of `msgBothFlags`. -/
def bothFlagsFields : List (String × JsonValue) :=
  [("requires_tool_call", .bool true), ("requires_deployment", .bool true)]

/-! ## C3 — mutual exclusivity of action and deployment routing -/

/-- Claim C3: a reasoning firing never routes to both the action branch
and the deployment branch: for the published decision message, if the
`action_topic` gate passes then the `deployment_topic` gate evaluates to
false, and conversely. -/
theorem C3_mutual_exclusivity (m : Message) :
    (action_topic_condition [m] = .ok true → deployment_topic_condition [m] = .ok false) ∧
    (deployment_topic_condition [m] = .ok true → action_topic_condition [m] = .ok false) := by
  unfold action_topic_condition deployment_topic_condition
  rw [evalAny_singleton, evalAny_singleton]
  obtain ⟨c⟩ := m
  cases c with
  | str s =>
    cases hj : json_loads s with
    | none => simp [decisionGateCond, hj]
    | some parsed =>
      cases parsed with
      | obj fields =>
        by_cases he : fields.isEmpty
        · simp [decisionGateCond, hj, JsonValue.truthy, he]
        · simp only [decisionGateCond, hj, JsonValue.truthy, he, Bool.not_false,
            if_pos, Bool.not_eq_true', actionFlags, deploymentFlags]
          constructor
          · intro h
            simp only [Except.ok.injEq, Bool.and_eq_true, Bool.not_eq_true'] at h ⊢
            exact h.2
          · intro h
            simp only [Except.ok.injEq] at h ⊢
            simp [h]
      | null => simp [decisionGateCond, hj, JsonValue.truthy]
      | bool b => cases b <;> simp [decisionGateCond, hj, JsonValue.truthy]
      | num n =>
        by_cases hn : n = 0 <;> simp [decisionGateCond, hj, JsonValue.truthy, hn]
      | str t =>
        by_cases ht : t = "" <;> simp [decisionGateCond, hj, JsonValue.truthy, ht]
      | arr es => cases es <;> simp [decisionGateCond, hj, JsonValue.truthy]
  | none => simp [decisionGateCond]
  | other => simp [decisionGateCond]

/-- Witness for C3 at a concrete action-routing decision. -/
theorem C3_witness :
    action_topic_condition [msgActionOnly] = .ok true ∧
    deployment_topic_condition [msgActionOnly] = .ok false :=
  ⟨rfl, (C3_mutual_exclusivity msgActionOnly).1 rfl⟩

/-! ## C5 — a decision marking both flags -/

/-- Counterexample to claim C5: for the reasoning output whose structured
decision marks both `requires_tool_call` and `requires_deployment` true,
the deployment branch does fire — the `deployment_topic` gate passes —
contradicting the claim that neither branch fires. -/
theorem C5_counterexample :
    json_loads "\x7b\"requires_tool_call\": true, \"requires_deployment\": true\x7d"
      = some (.obj bothFlagsFields) ∧
    pyGetFlag bothFlagsFields "requires_tool_call" false = true ∧
    pyGetFlag bothFlagsFields "requires_deployment" false = true ∧
    deployment_topic_condition [msgBothFlags] = .ok true := by
  exact ⟨rfl, rfl, rfl, rfl⟩

/-- Claim C5 as amended: for a reasoning output whose decision marks both
`requires_tool_call` and `requires_deployment` true, the action gate does
not pass, but the deployment gate does — the deployment branch alone
fires; the both-flags case is not rejected. -/
theorem C5_amended_deployment_fires (m : Message) (s : String)
    (fields : List (String × JsonValue))
    (hc : m.content = .str s) (hj : json_loads s = some (.obj fields))
    (htool : pyGetFlag fields "requires_tool_call" false = true)
    (hdep : pyGetFlag fields "requires_deployment" false = true) :
    action_topic_condition [m] = .ok false ∧
    deployment_topic_condition [m] = .ok true := by
  have hne := pyGetFlag_true_ne_empty fields _ hdep
  unfold action_topic_condition deployment_topic_condition
  rw [evalAny_singleton, evalAny_singleton]
  simp [decisionGateCond, hc, hj, JsonValue.truthy, hne, actionFlags, deploymentFlags,
    htool, hdep]

/-- Witness for C5's amended claim at the concrete both-flags message. -/
theorem C5_witness :
    action_topic_condition [msgBothFlags] = .ok false ∧
    deployment_topic_condition [msgBothFlags] = .ok true :=
  C5_amended_deployment_fires msgBothFlags _ bothFlagsFields rfl rfl rfl rfl

/-! ## C4 — gate behaviour on malformed payloads -/

/-- Counterexample to claim C4: on a batch holding a message whose string
content is not valid JSON, the workflow's gates raise a decode error
instead of returning false. -/
theorem C4_counterexample :
    json_loads "not-json" = none ∧
    action_topic_condition [msgNotJson] = .error .jsonDecodeError ∧
    ¬ action_topic_condition [msgNotJson] = .ok false := by
  have h2 : action_topic_condition [msgNotJson] = .error .jsonDecodeError := rfl
  refine ⟨rfl, h2, ?_⟩
  rw [h2]
  intro h
  exact Except.noConfusion h

/-- Claim C4 as amended: a gate of the reasoning-decision shape returns
false without raising when a message's content is absent or not a string,
and evaluates without raising on any content that parses to a JSON object
(missing decision fields use their defaults); but a string content that is
not valid JSON makes `action_topic`, `deployment_topic` and
`reasoning_output_topic` gate evaluation raise a `json.JSONDecodeError`
rather than return false. -/
theorem C4_amended_gate_totality :
    (∀ (fe : List (String × JsonValue) → Bool) (m : Message),
        m.content = .none ∨ m.content = .other →
        evalAny (decisionGateCond fe) [m] = .ok false) ∧
    (∀ (fe : List (String × JsonValue) → Bool) (m : Message) (s : String)
        (fields : List (String × JsonValue)),
        m.content = .str s → json_loads s = some (.obj fields) →
        ∃ b, evalAny (decisionGateCond fe) [m] = .ok b) ∧
    (∀ (m : Message) (s : String), m.content = .str s → json_loads s = none →
        action_topic_condition [m] = .error .jsonDecodeError ∧
        deployment_topic_condition [m] = .error .jsonDecodeError ∧
        reasoning_output_topic_condition [m] = .error .jsonDecodeError) := by
  refine ⟨?_, ?_, ?_⟩
  · intro fe m h
    rw [evalAny_singleton]
    cases h <;> simp [decisionGateCond, *]
  · intro fe m s fields hc hj
    rw [evalAny_singleton]
    by_cases he : fields.isEmpty
    · exact ⟨false, by simp [decisionGateCond, hc, hj, JsonValue.truthy, he]⟩
    · exact ⟨fe fields, by simp [decisionGateCond, hc, hj, JsonValue.truthy, he]⟩
  · intro m s hc hj
    unfold action_topic_condition deployment_topic_condition reasoning_output_topic_condition
    rw [evalAny_singleton, evalAny_singleton, evalAny_singleton]
    simp [decisionGateCond, hc, hj]

/-- Witness for C4's amended claim at concrete messages. -/
theorem C4_witness :
    evalAny (decisionGateCond actionFlags) [msgNone] = .ok false ∧
    (∃ b, evalAny (decisionGateCond actionFlags) [msgBothFlags] = .ok b) ∧
    action_topic_condition [msgNotJson] = .error .jsonDecodeError :=
  ⟨C4_amended_gate_totality.1 actionFlags msgNone (Or.inl rfl),
   C4_amended_gate_totality.2.1 actionFlags msgBothFlags _ bothFlagsFields rfl rfl,
   (C4_amended_gate_totality.2.2 msgNotJson "not-json" rfl rfl).1⟩

/-! ## C1 — approval-request deduplication -/

/-- Unfolding equation for the duplicate scan on a non-empty store. -/
lemma findExisting_cons (pid : String) (pr : ApprovalRecord) (rest : ApprovalStore)
    (f : String) :
    findExistingApproval ((pid, pr) :: rest) f =
      if !pr.processed && (txFingerprint pr.transaction_data == f) then some pid
      else findExistingApproval rest f := rfl

/-- Unfolding equation for marking on a non-empty store. -/
lemma markProcessed_cons (pid : String) (pr : ApprovalRecord) (rest : ApprovalStore)
    (aid : String) :
    markProcessed ((pid, pr) :: rest) aid =
      (if pid = aid then (pid, { pr with processed := true }) else (pid, pr))
        :: markProcessed rest aid := by
  simp only [markProcessed, List.map_cons]

/-- The duplicate scan distributes over store concatenation. -/
lemma findExisting_append (a b : ApprovalStore) (f : String) :
    findExistingApproval (a ++ b) f =
      match findExistingApproval a f with
      | some i => some i
      | none => findExistingApproval b f := by
  induction a with
  | nil => simp [findExistingApproval]
  | cons p rest ih =>
    obtain ⟨id, r⟩ := p
    by_cases h : (!r.processed && (txFingerprint r.transaction_data == f)) = true
    · simp [findExistingApproval, h]
    · simp only [List.cons_append, findExistingApproval, h, if_neg, Bool.not_eq_true] at ih ⊢
      simp [h, ih]

/-- Appending a fresh unprocessed record whose fingerprint has no
unprocessed duplicate keeps the store deduplicated. -/
lemma dedupOK_append_fresh (s : ApprovalStore) (freshId : String)
    (td : List (String × JsonValue)) (hd : dedupOK s = true)
    (hf : findExistingApproval s (txFingerprint td) = none) :
    dedupOK (s ++ [(freshId, { transaction_data := td, processed := false })]) = true := by
  induction s with
  | nil => simp [dedupOK, findExistingApproval]
  | cons p rest ih =>
    obtain ⟨pid, pr⟩ := p
    simp only [dedupOK, Bool.and_eq_true] at hd
    have hcond : (!pr.processed && (txFingerprint pr.transaction_data == txFingerprint td)) = false := by
      by_contra hc
      simp only [Bool.not_eq_false] at hc
      simp [findExistingApproval, hc] at hf
    have hrest : findExistingApproval rest (txFingerprint td) = none := by
      simpa [findExistingApproval, hcond] using hf
    simp only [List.cons_append, dedupOK, Bool.and_eq_true]
    refine ⟨?_, ih hd.2 hrest⟩
    cases hp : pr.processed with
    | true => simp
    | false =>
      have hnone : findExistingApproval rest (txFingerprint pr.transaction_data) = none := by
        rcases hd.1 with h1
        rw [hp] at h1
        simp only [Bool.false_or, Option.isNone_iff_eq_none] at h1
        exact h1
      have hfp : (txFingerprint td == txFingerprint pr.transaction_data) = false := by
        rw [hp] at hcond
        simp only [Bool.not_false, Bool.true_and] at hcond
        simp only [beq_eq_false_iff_ne, ne_eq] at hcond ⊢
        exact fun h => hcond h.symm
      have hnone2 : findExistingApproval
          (rest ++ [(freshId, { transaction_data := td, processed := false })])
          (txFingerprint pr.transaction_data) = none := by
        rw [findExisting_append, hnone, findExisting_cons]
        simp [hfp, findExistingApproval]
      simp only [List.append_eq]
      simp [hnone2]

/-- Marking a request processed introduces no unprocessed duplicate. -/
lemma findExisting_mark_none (s : ApprovalStore) (approval_id f : String)
    (h : findExistingApproval s f = none) :
    findExistingApproval (markProcessed s approval_id) f = none := by
  induction s with
  | nil => rfl
  | cons p rest ih =>
    obtain ⟨pid, pr⟩ := p
    rw [findExisting_cons] at h
    have hcond : (!pr.processed && (txFingerprint pr.transaction_data == f)) = false := by
      by_contra hc
      simp only [Bool.not_eq_false] at hc
      rw [hc] at h
      simp at h
    rw [hcond] at h
    simp only [Bool.false_eq_true, if_false] at h
    rw [markProcessed_cons]
    by_cases hid : pid = approval_id
    · rw [if_pos hid, findExisting_cons]
      simp [ih h]
    · rw [if_neg hid, findExisting_cons, hcond]
      simp [ih h]

/-- Marking via `markProcessed` preserves the dedup invariant. -/
lemma dedupOK_mark (s : ApprovalStore) (approval_id : String)
    (hd : dedupOK s = true) : dedupOK (markProcessed s approval_id) = true := by
  induction s with
  | nil => rfl
  | cons p rest ih =>
    obtain ⟨pid, pr⟩ := p
    simp only [dedupOK, Bool.and_eq_true] at hd
    rw [markProcessed_cons]
    by_cases hid : pid = approval_id
    · rw [if_pos hid]
      simp only [dedupOK, Bool.and_eq_true]
      exact ⟨by simp, ih hd.2⟩
    · rw [if_neg hid]
      simp only [dedupOK, Bool.and_eq_true]
      refine ⟨?_, ih hd.2⟩
      cases hp : pr.processed with
      | true => simp
      | false =>
        have h1 := hd.1
        rw [hp] at h1
        simp only [Bool.false_or, Option.isNone_iff_eq_none] at h1
        have h2 := findExisting_mark_none rest approval_id _ h1
        simp [hp, h2]

/-- Chat-endpoint approval creation preserves the dedup invariant. -/
lemma dedupOK_chatCreate (s : ApprovalStore) (freshId : String)
    (td : List (String × JsonValue)) (hd : dedupOK s = true) :
    dedupOK (chatCreateApproval s freshId td) = true := by
  unfold chatCreateApproval
  cases hf : findExistingApproval s (txFingerprint td) with
  | some i => exact hd
  | none => exact dedupOK_append_fresh s freshId td hd hf

/-- The two-mock-requests store that defeats global deduplication. -/
def mockDupStore : ApprovalStore :=
  create_mock_approval_request (create_mock_approval_request [] "mock1") "mock2"

/-- Counterexample to claim C1 as stated: the store state reached by
calling the dev endpoint `create_mock_approval_request` twice is a
reachable state of the approval store holding two unprocessed requests
with the same transaction-data fingerprint, so the global at-most-one
invariant fails. -/
theorem C1_counterexample :
    ReachableState mockDupStore ∧ dedupOK mockDupStore = false :=
  ⟨ReachableState.mock _ "mock2" (ReachableState.mock _ "mock1" ReachableState.init rfl) rfl,
   rfl⟩

/-- Claim C1 as amended: in every store state reachable through the
deployment workflow's own operations — chat-endpoint approval creation
(with its dedup scan) and respond processing — at most one unprocessed
request exists per transaction-data fingerprint; and the chat endpoint
creates no new request when an unprocessed request with the same
fingerprint already exists.  The dev mock-request endpoint bypasses the
dedup scan and can break the global invariant. -/
theorem C1_amended_dedup_invariant :
    (∀ s : ApprovalStore, ChatReachable s → dedupOK s = true) ∧
    (∀ (s : ApprovalStore) (freshId : String) (td : List (String × JsonValue)),
        (findExistingApproval s (txFingerprint td)).isSome = true →
        chatCreateApproval s freshId td = s) := by
  constructor
  · intro s h
    induction h with
    | init => rfl
    | chat s' freshId td _ _ ih => exact dedupOK_chatCreate s' freshId td ih
    | respond s' approval_id _ ih => exact dedupOK_mark s' approval_id ih
  · intro s freshId td h
    unfold chatCreateApproval
    cases hf : findExistingApproval s (txFingerprint td) with
    | some i => rfl
    | none => rw [hf] at h; simp at h

/-- A sample prepared-transaction payload. -/
def td0 : List (String × JsonValue) := [("data", .str "0xdeadbeef")]

/-- The store after one chat-endpoint approval creation for `td0`. -/
def storeC1 : ApprovalStore := chatCreateApproval [] "id1" td0

/-- Witness for C1's amended claim: the one-request store is deduplicated,
and a second creation with the identical transaction data inserts
nothing. -/
theorem C1_witness :
    dedupOK storeC1 = true ∧ chatCreateApproval storeC1 "id2" td0 = storeC1 :=
  ⟨C1_amended_dedup_invariant.1 storeC1
      (ChatReachable.chat [] "id1" td0 ChatReachable.init rfl),
   C1_amended_dedup_invariant.2 storeC1 "id2" td0 rfl⟩

/-! ## C2 — idempotent approval processing -/

/-- The record stored for the already-processed approval. -/
def recProcessed : ApprovalRecord := { transaction_data := td0, processed := true }

/-- Backend state after a first respond call: one processed request, one
workflow invocation. -/
def stProc : BackendState :=
  { approval_requests := [("id0", recProcessed)], workflow_invocations := 1 }

/-- Counterexample to claim C2 as stated: responding again for the
already-processed id `id0` is accepted, but it drives a second
`assistant.a_invoke` round — the workflow-invocation count rises from 1
to 2 — so the repeat call does have a duplicate downstream effect. -/
theorem C2_counterexample :
    alistFind stProc.approval_requests "id0" = some recProcessed ∧
    recProcessed.processed = true ∧
    stProc.workflow_invocations = 1 ∧
    (submit_approval_response true stProc "id0").1.success = true ∧
    (submit_approval_response true stProc "id0").2.workflow_invocations = 2 :=
  ⟨rfl, rfl, rfl, rfl, rfl⟩

/-- Marking is a no-op on a store whose bindings for the id are all
processed. -/
lemma markProcessed_noop (s : ApprovalStore) (approval_id : String)
    (h : ∀ rec : ApprovalRecord, (approval_id, rec) ∈ s → rec.processed = true) :
    markProcessed s approval_id = s := by
  induction s with
  | nil => rfl
  | cons p rest ih =>
    obtain ⟨pid, pr⟩ := p
    rw [markProcessed_cons]
    have htail : markProcessed rest approval_id = rest :=
      ih (fun rec hm => h rec (List.mem_cons_of_mem _ hm))
    rw [htail]
    by_cases hid : pid = approval_id
    · have hpr : pr.processed = true := h pr (by rw [hid]; exact List.mem_cons_self _ _)
      have hrec : ({ pr with processed := true } : ApprovalRecord) = pr := by
        cases pr; simp_all
      rw [if_pos hid, hrec]
    · rw [if_neg hid]

/-- Claim C2 as amended: the first matching respond call marks the request
processed; a repeat respond for an already-processed id returns success
(it is not an error) and leaves the approval store unchanged — marking is
idempotent — but every respond call, repeats included, drives one more
workflow invocation, a duplicated downstream effect. -/
theorem C2_amended_idempotent_store :
    (∀ (s : ApprovalStore) (approval_id : String) (rec : ApprovalRecord),
        (approval_id, rec) ∈ s →
        (approval_id, { rec with processed := true }) ∈ markProcessed s approval_id) ∧
    (∀ (st : BackendState) (approval_id : String),
        (∀ rec : ApprovalRecord, (approval_id, rec) ∈ st.approval_requests →
          rec.processed = true) →
        submit_approval_response true st approval_id =
          ({ success := true, message := "Approval response submitted successfully" },
           { approval_requests := st.approval_requests,
             workflow_invocations := st.workflow_invocations + 1 })) := by
  constructor
  · intro s approval_id rec h
    have := List.mem_map_of_mem
      (f := fun p : String × ApprovalRecord =>
        if p.1 = approval_id then (p.1, { p.2 with processed := true }) else p) h
    simpa [markProcessed] using this
  · intro st approval_id h
    unfold submit_approval_response
    rw [if_pos rfl, markProcessed_noop st.approval_requests approval_id h]

/-- Witness for C2's amended claim at the concrete processed store. -/
theorem C2_witness :
    ("id0", { recProcessed with processed := true }) ∈
      markProcessed [("id0", recProcessed)] "id0" ∧
    submit_approval_response true stProc "id0" =
      ({ success := true, message := "Approval response submitted successfully" },
       { approval_requests := stProc.approval_requests,
         workflow_invocations := stProc.workflow_invocations + 1 }) :=
  ⟨C2_amended_idempotent_store.1 [("id0", recProcessed)] "id0" recProcessed
      (List.mem_singleton.mpr rfl),
   C2_amended_idempotent_store.2 stProc "id0"
      (fun rec hm => by
        have : rec = recProcessed := by
          simpa using congrArg Prod.snd (List.mem_singleton.mp hm)
        rw [this]
        rfl)⟩

/-! ## C6 — constructor-argument synthesis policy -/

/-- The source's per-parameter synthesis yields exactly the claim's
policy value. -/
lemma synthesize_eq_spec (a : String) (p : AbiParam) :
    (synthesizeConstructorArg a p).1 = specConstructorArg a p := by
  unfold synthesizeConstructorArg specConstructorArg
  dsimp only
  split_ifs <;> rfl

/-- An unhandled parameter type that is neither `uint*` nor `bool`
records exactly the warning message. -/
lemma synthesize_snd_unknown (a : String) (p : AbiParam)
    (hu : isUnrecognizedType p.type = true) :
    (synthesizeConstructorArg a p).2 =
      ["Unknown constructor parameter type: " ++ p.type] := by
  simp only [isUnrecognizedType, Bool.and_eq_true, Bool.not_eq_true'] at hu
  obtain ⟨⟨⟨⟨⟨h1, h2⟩, h3⟩, h4⟩, h5⟩, h6⟩ := hu
  unfold synthesizeConstructorArg
  simp [h1, h2, h3, h4, h5, h6]

/-- The argument list is the per-parameter policy mapped over the
constructor inputs. -/
lemma buildConstructorArgs_fst (a : String) (inputs : List AbiParam) :
    (buildConstructorArgs a inputs).1 = inputs.map (specConstructorArg a) := by
  induction inputs with
  | nil => rfl
  | cons p rest ih =>
    simp only [buildConstructorArgs, List.map_cons]
    rw [← synthesize_eq_spec a p, ← ih]

/-- Each unrecognized parameter's warning is collected. -/
lemma warning_mem (a : String) (inputs : List AbiParam) (p : AbiParam)
    (hp : p ∈ inputs) (hu : isUnrecognizedType p.type = true) :
    ("Unknown constructor parameter type: " ++ p.type) ∈ (buildConstructorArgs a inputs).2 := by
  induction inputs with
  | nil => cases hp
  | cons q rest ih =>
    simp only [buildConstructorArgs]
    rcases List.mem_cons.mp hp with hq | hrest
    · subst hq
      exact List.mem_append_left _ (by rw [synthesize_snd_unknown a p hu]; exact List.mem_singleton.mpr rfl)
    · exact List.mem_append_right _ (ih hrest)

/-- An ABI with no constructor entry yields no constructor inputs. -/
lemma findCtor_of_no_constructor (abi : List AbiItem)
    (h : ∀ item ∈ abi, item.type ≠ "constructor") :
    findConstructorInputs abi = [] := by
  induction abi with
  | nil => rfl
  | cons item rest ih =>
    have : (item.type == "constructor") = false :=
      beq_eq_false_iff_ne.mpr (h item (List.mem_cons_self _ _))
    simp only [findConstructorInputs, this, Bool.false_eq_true, if_false]
    exact ih (fun i hi => h i (List.mem_cons_of_mem _ hi))

/-- Claim C6: for every ABI and signer address, the synthesized argument
list has one entry per constructor parameter, each determined by the
claim's type-and-name policy (`specConstructorArg`); an unrecognized
parameter type maps to the empty string with a warning recorded and no
failure; an ABI with no constructor entry yields the empty list. -/
theorem C6_constructor_argument_policy (user_address : String) (abi : List AbiItem) :
    (buildConstructorArgs user_address (findConstructorInputs abi)).1
        = (findConstructorInputs abi).map (specConstructorArg user_address) ∧
    (buildConstructorArgs user_address (findConstructorInputs abi)).1.length
        = (findConstructorInputs abi).length ∧
    (∀ p ∈ findConstructorInputs abi, isUnrecognizedType p.type = true →
        specConstructorArg user_address p = .str "" ∧
        ("Unknown constructor parameter type: " ++ p.type)
          ∈ (buildConstructorArgs user_address (findConstructorInputs abi)).2) ∧
    ((∀ item ∈ abi, item.type ≠ "constructor") →
        (buildConstructorArgs user_address (findConstructorInputs abi)).1 = []) := by
  refine ⟨buildConstructorArgs_fst _ _, ?_, ?_, ?_⟩
  · rw [buildConstructorArgs_fst]
    exact List.length_map _ _
  · intro p hp hu
    refine ⟨?_, warning_mem _ _ p hp hu⟩
    simp only [isUnrecognizedType, Bool.and_eq_true, Bool.not_eq_true'] at hu
    obtain ⟨⟨⟨⟨⟨h1, h2⟩, h3⟩, h4⟩, h5⟩, h6⟩ := hu
    unfold specConstructorArg
    simp [h1, h2, h3, h4, h5, h6]
  · intro h
    rw [findCtor_of_no_constructor abi h]
    rfl

/-- A representative ABI: one constructor covering the policy's branches,
including an unrecognized `bytes32` parameter. -/
def sampleAbi : List AbiItem :=
  [{ type := "constructor",
     inputs := [{ name := "initialOwner", type := "address" },
                { name := "initialSupply", type := "uint256" },
                { name := "cap", type := "uint256" },
                { name := "tokenName", type := "string" },
                { name := "tokenSymbol", type := "string" },
                { name := "decimals_", type := "uint8" },
                { name := "nonce", type := "uint64" },
                { name := "paused", type := "bool" },
                { name := "salt", type := "bytes32" }] }]

/-- An ABI holding no constructor entry. -/
def noCtorAbi : List AbiItem := [{ type := "function", inputs := [] }]

/-- Witness for C6 at the representative ABI and a concrete signer. -/
theorem C6_witness :
    (buildConstructorArgs "0xAbCd" (findConstructorInputs sampleAbi)).1
        = (findConstructorInputs sampleAbi).map (specConstructorArg "0xAbCd") ∧
    ("Unknown constructor parameter type: " ++ "bytes32")
        ∈ (buildConstructorArgs "0xAbCd" (findConstructorInputs sampleAbi)).2 ∧
    (buildConstructorArgs "0xAbCd" (findConstructorInputs noCtorAbi)).1 = [] :=
  ⟨(C6_constructor_argument_policy "0xAbCd" sampleAbi).1,
   ((C6_constructor_argument_policy "0xAbCd" sampleAbi).2.2.1
      { name := "salt", type := "bytes32" } (by decide) rfl).2,
   (C6_constructor_argument_policy "0xAbCd" noCtorAbi).2.2.2 (by decide)⟩

/-! ## C7 — determinism of constructor-argument synthesis -/

/-- Claim C7: two `prepare_deployment_transaction` runs over the same ABI
and signer address synthesize identical constructor arguments, whatever
the ambient chain observations (nonce, chain id, gas estimate), gas
parameters, registries or compilation ids of the two runs; the arguments
are exactly the pure `buildConstructorArgs` of the ABI and checksummed
address. -/
theorem C7_synthesis_deterministic
    (checksum : String → String) (encodeCtor : List AbiItem → List PyValue → String)
    (r1 r2 : Registry) (c1 c2 : ChainState) (cid1 cid2 addr : String)
    (gl1 gp1 gl2 gp2 : Nat) (e1 e2 : CompilationEntry)
    (h1 : alistFind r1 cid1 = some e1) (h2 : alistFind r2 cid2 = some e2)
    (habi : e1.abi = e2.abi)
    (hr1 : c1.rpc_configured = true) (hn1 : c1.connected = true)
    (hr2 : c2.rpc_configured = true) (hn2 : c2.connected = true) :
    (prepare_deployment_transaction checksum encodeCtor r1 c1 cid1 addr gl1 gp1).ctorArgs
      = (prepare_deployment_transaction checksum encodeCtor r2 c2 cid2 addr gl2 gp2).ctorArgs ∧
    (prepare_deployment_transaction checksum encodeCtor r1 c1 cid1 addr gl1 gp1).ctorArgs
      = some (buildConstructorArgs (checksum addr) (findConstructorInputs e1.abi)).1 := by
  unfold prepare_deployment_transaction
  rw [h1, h2, hr1, hn1, hr2, hn2, habi]
  cases c1.gas_estimate <;> cases c2.gas_estimate <;>
    simp [PrepareResult.ctorArgs, habi]

/-- A stored compilation for the concrete witnesses. -/
def entry0 : CompilationEntry :=
  { abi := sampleAbi, bytecode := "0x6080604052", source_code := "contract C \x7b\x7d" }

/-- A registry holding `entry0` under id `cid-1`. -/
def registry0 : Registry := [("cid-1", entry0)]

/-- Two differing chain observations (nonce, chain id, estimation
outcome). -/
def chainA : ChainState :=
  { rpc_configured := true, connected := true, nonce := 0, chain_id := 11155111,
    gas_estimate := some 100000 }

/-- A second chain observation with different nonce, chain id, and a
failed gas estimation. -/
def chainB : ChainState :=
  { rpc_configured := true, connected := true, nonce := 7, chain_id := 1,
    gas_estimate := none }

/-- Witness for C7: the two concrete runs agree on constructor args. -/
theorem C7_witness :
    (prepare_deployment_transaction id (fun _ _ => "") registry0 chainA "cid-1" "0xAbCd" 2000000 10).ctorArgs
      = (prepare_deployment_transaction id (fun _ _ => "") registry0 chainB "cid-1" "0xAbCd" 3000000 20).ctorArgs :=
  (C7_synthesis_deterministic id (fun _ _ => "") registry0 registry0 chainA chainB
    "cid-1" "cid-1" "0xAbCd" 2000000 10 3000000 20 entry0 entry0
    rfl rfl rfl rfl rfl rfl rfl).1

/-! ## C8 — unknown compilation id on prepare -/

/-- Claim C8: `prepare_deployment_transaction` on a compilation id absent
from the registry returns the `success: false` / `Invalid compilation ID`
payload with no transaction, and the chat endpoint creates no
`ApprovalRequest` from that payload.  (The registry itself is only ever
read by the embedded `prepare_deployment_transaction`, which takes it as
an input and returns no updated registry.) -/
theorem C8_unknown_compilation_id
    (checksum : String → String) (encodeCtor : List AbiItem → List PyValue → String)
    (cache : Registry) (chain : ChainState) (cid ua : String) (gl gp : Nat)
    (store : ApprovalStore) (freshId : String)
    (h : alistFind cache cid = none) :
    prepare_deployment_transaction checksum encodeCtor cache chain cid ua gl gp
        = .failure "Invalid compilation ID" ∧
    (prepare_deployment_transaction checksum encodeCtor cache chain cid ua gl gp).isSuccess
        = false ∧
    (prepare_deployment_transaction checksum encodeCtor cache chain cid ua gl gp).ctorArgs
        = none ∧
    chatHandlePrepareResult store freshId
        (prepare_deployment_transaction checksum encodeCtor cache chain cid ua gl gp)
        = store := by
  have hp : prepare_deployment_transaction checksum encodeCtor cache chain cid ua gl gp
      = .failure "Invalid compilation ID" := by
    unfold prepare_deployment_transaction
    rw [h]
  exact ⟨hp, by rw [hp]; rfl, by rw [hp]; rfl, by rw [hp]; rfl⟩

/-- Witness for C8 at a concrete unknown id and a non-empty store. -/
theorem C8_witness :
    prepare_deployment_transaction id (fun _ _ => "") registry0 chainA "cid-missing" "0xAbCd" 2000000 10
        = .failure "Invalid compilation ID" ∧
    chatHandlePrepareResult storeC1 "idX"
        (prepare_deployment_transaction id (fun _ _ => "") registry0 chainA "cid-missing" "0xAbCd" 2000000 10)
        = storeC1 :=
  ⟨(C8_unknown_compilation_id id (fun _ _ => "") registry0 chainA "cid-missing" "0xAbCd"
      2000000 10 storeC1 "idX" rfl).1,
   (C8_unknown_compilation_id id (fun _ _ => "") registry0 chainA "cid-missing" "0xAbCd"
      2000000 10 storeC1 "idX" rfl).2.2.2⟩

/-! ## C9 — signed-transaction hex validation -/

/-- Is the broadcast result's `success` field true? -/
def BroadcastResult.isSuccess : BroadcastResult → Bool
  | .failure _ => false
  | .ok _ _ _ => true

/-- An even-length run of hex digits decodes. -/
lemma fromhexAux_of_allhex (n : Nat) :
    ∀ cs : List Char, cs.length ≤ n →
      cs.all (fun c => (hexVal c).isSome) = true → cs.length % 2 = 0 →
      (bytesFromhexAux cs).isSome = true := by
  induction n with
  | zero =>
    intro cs hlen _ _
    interval_cases h : cs.length
    · rw [List.length_eq_zero.mp h]
      rfl
  | succ n ih =>
    intro cs hlen hall hev
    match cs with
    | [] => rfl
    | [c] => simp at hev
    | c :: c2 :: cs' =>
      simp only [List.all_cons, Bool.and_eq_true] at hall
      obtain ⟨hc, hc2, hcs'⟩ := hall
      have hcsp : c ≠ ' ' := by
        intro hceq
        rw [hceq] at hc
        simp [hexVal] at hc
      obtain ⟨h1, hh1⟩ := Option.isSome_iff_exists.mp hc
      obtain ⟨h2, hh2⟩ := Option.isSome_iff_exists.mp hc2
      have hrest : (bytesFromhexAux cs').isSome = true := by
        refine ih cs' ?_ hcs' ?_
        · simp only [List.length_cons] at hlen
          omega
        · simp only [List.length_cons] at hev ⊢
          omega
      obtain ⟨bs, hbs⟩ := Option.isSome_iff_exists.mp hrest
      simp [bytesFromhexAux, hcsp, hh1, hh2, hbs]

/-- Claim C9: with the chain client reachable, a payload that does not
decode as hex (after stripping an optional `0x` prefix) makes
`broadcast_signed_transaction` return the caught-`ValueError` failure
payload with nothing submitted to the chain; conversely any payload that
is valid hex with or without the `0x` prefix is decoded and submitted. -/
theorem C9_broadcast_hex_validation (chain : BroadcastChain) (s : String)
    (hrpc : chain.rpc_configured = true) (hconn : chain.connected = true) :
    (bytes_fromhex (strip0x s) = none →
        (broadcast_signed_transaction chain s).1
            = .failure "Transaction broadcast failed: non-hexadecimal number found in fromhex() arg" ∧
        (broadcast_signed_transaction chain s).1.isSuccess = false ∧
        (broadcast_signed_transaction chain s).2 = []) ∧
    (specValidHex s = true →
        ∃ bs, bytes_fromhex (strip0x s) = some bs ∧
          (broadcast_signed_transaction chain s).2 = [bs]) := by
  constructor
  · intro hdec
    unfold broadcast_signed_transaction
    rw [hrpc, hconn, hdec]
    exact ⟨rfl, rfl, rfl⟩
  · intro hvalid
    simp only [specValidHex, Bool.and_eq_true, beq_iff_eq] at hvalid
    have hsome : (bytesFromhexAux (strip0x s).data).isSome = true :=
      fromhexAux_of_allhex (strip0x s).data.length (strip0x s).data le_rfl
        hvalid.1 hvalid.2
    obtain ⟨bs, hbs⟩ := Option.isSome_iff_exists.mp hsome
    have hb2 : bytes_fromhex (strip0x s) = some bs := hbs
    refine ⟨bs, hb2, ?_⟩
    unfold broadcast_signed_transaction
    rw [hrpc, hconn, hb2]
    cases chain.receipt_available <;> rfl

/-- A reachable chain with a receipt for the witness. -/
def chainOk : BroadcastChain :=
  { rpc_configured := true, connected := true,
    receipt_contract_address := "0x0123456789abcdef0123456789abcdef01234567",
    receipt_gas_used := 21000, receipt_block_number := 1, receipt_available := true }

/-- Witness for C9: the non-hex payload is rejected unsent, and a valid
`0x`-prefixed payload is decoded and submitted. -/
theorem C9_witness :
    ((broadcast_signed_transaction chainOk "not-hex").2 = [] ∧
      (broadcast_signed_transaction chainOk "not-hex").1.isSuccess = false) ∧
    (∃ bs, bytes_fromhex (strip0x "0xdeadbeef") = some bs ∧
      (broadcast_signed_transaction chainOk "0xdeadbeef").2 = [bs]) :=
  ⟨⟨((C9_broadcast_hex_validation chainOk "not-hex" rfl rfl).1 rfl).2.2,
    ((C9_broadcast_hex_validation chainOk "not-hex" rfl rfl).1 rfl).2.1⟩,
   (C9_broadcast_hex_validation chainOk "0xdeadbeef" rfl rfl).2 rfl⟩

/-! ## C10 — single-entry compilation registration -/

/-- Appending a binding under a fresh key makes it retrievable. -/
lemma alistFind_append_self {α : Type} (xs : List (String × α)) (k : String) (v : α)
    (h : alistFind xs k = none) : alistFind (xs ++ [(k, v)]) k = some v := by
  induction xs with
  | nil => simp [alistFind]
  | cons p rest ih =>
    obtain ⟨k', v'⟩ := p
    by_cases hk : (k' == k) = true
    · simp [alistFind, hk] at h
    · simp only [alistFind, hk, Bool.false_eq_true, if_false] at h
      simpa [alistFind, hk] using ih h

/-- Appending a binding leaves other keys' lookups unchanged. -/
lemma alistFind_append_other {α : Type} (xs : List (String × α)) (k id : String) (v : α)
    (h : id ≠ k) : alistFind (xs ++ [(k, v)]) id = alistFind xs id := by
  induction xs with
  | nil => simp [alistFind, beq_eq_false_iff_ne.mpr (fun he => h he.symm)]
  | cons p rest ih =>
    obtain ⟨k', v'⟩ := p
    by_cases hk : (k' == id) = true
    · simp [alistFind, hk]
    · simp [alistFind, hk, ih]

/-- Claim C10: a successful `compile_contract` call stores exactly one new
`CompilationEntry` under the fresh id — the store grows by one binding and
every other id's lookup is untouched — and when the compiler output holds
several contracts, the stored `abi` and `bytecode` are the first
contract's only, which is what `get_abi` and `get_bytecode` then return. -/
theorem C10_single_entry_registration
    (cache : Registry) (freshId src : String)
    (c0 : String × CompiledContract) (rest : List (String × CompiledContract))
    (hfresh : alistFind cache freshId = none) :
    (compile_contract cache freshId src (c0 :: rest)).1
        = .ok freshId "Contract compiled successfully. Use get_abi and get_bytecode tools to retrieve data." ∧
    (compile_contract cache freshId src (c0 :: rest)).2.length = cache.length + 1 ∧
    alistFind (compile_contract cache freshId src (c0 :: rest)).2 freshId
        = some { abi := c0.2.abi, bytecode := c0.2.bin, source_code := src } ∧
    get_abi (compile_contract cache freshId src (c0 :: rest)).2 freshId
        = .ok c0.2.abi "ABI retrieved successfully" ∧
    get_bytecode (compile_contract cache freshId src (c0 :: rest)).2 freshId
        = .ok c0.2.bin "Bytecode retrieved successfully" ∧
    (∀ id, id ≠ freshId →
        alistFind (compile_contract cache freshId src (c0 :: rest)).2 id
          = alistFind cache id) := by
  obtain ⟨cname, cdata⟩ := c0
  have hfind : alistFind (compile_contract cache freshId src ((cname, cdata) :: rest)).2 freshId
      = some { abi := cdata.abi, bytecode := cdata.bin, source_code := src } := by
    simp only [compile_contract]
    exact alistFind_append_self cache freshId _ hfresh
  refine ⟨rfl, ?_, hfind, ?_, ?_, ?_⟩
  · simp [compile_contract]
  · rw [get_abi, hfind]
  · rw [get_bytecode, hfind]
  · intro id hid
    simp only [compile_contract]
    exact alistFind_append_other cache freshId id _ hid

/-- A two-contract compiler output for the witness. -/
def twoContractOutput : List (String × CompiledContract) :=
  [("<stdin>:First", { abi := sampleAbi, bin := "0x6001" }),
   ("<stdin>:Second", { abi := noCtorAbi, bin := "0x6002" })]

/-- Witness for C10: with two compiled contracts, only the first one's
abi and bytecode are stored and returned. -/
theorem C10_witness :
    get_abi (compile_contract [] "fresh-id" "src" twoContractOutput).2 "fresh-id"
        = .ok sampleAbi "ABI retrieved successfully" ∧
    get_bytecode (compile_contract [] "fresh-id" "src" twoContractOutput).2 "fresh-id"
        = .ok "0x6001" "Bytecode retrieved successfully" ∧
    (compile_contract [] "fresh-id" "src" twoContractOutput).2.length = 1 :=
  ⟨(C10_single_entry_registration [] "fresh-id" "src"
      ("<stdin>:First", { abi := sampleAbi, bin := "0x6001" })
      [("<stdin>:Second", { abi := noCtorAbi, bin := "0x6002" })] rfl).2.2.2.1,
   (C10_single_entry_registration [] "fresh-id" "src"
      ("<stdin>:First", { abi := sampleAbi, bin := "0x6001" })
      [("<stdin>:Second", { abi := noCtorAbi, bin := "0x6002" })] rfl).2.2.2.2.1,
   (C10_single_entry_registration [] "fresh-id" "src"
      ("<stdin>:First", { abi := sampleAbi, bin := "0x6001" })
      [("<stdin>:Second", { abi := noCtorAbi, bin := "0x6002" })] rfl).2.1⟩

end SmartContractAgent
